import Mathlib

/-!
Shallow embedding of the slow-query capture, enrichment and delivery
pipeline of the typeorm-query-analyzer repository.

Modelling conventions:
* TypeScript numbers that the code only compares and stores are `Int`.
* JS strings are Lean `String`s; `substring(0, n)` is `List.take n` on
  `String.data` (JS substring clamps a negative bound to `0`, as does
  `Int.toNat`).
* `undefined`/`null`-able inputs are `Option`s.
* Fallible effects (query-runner calls, HTTP, queue insertion) are
  oracles carried in explicit "world" records; a call that can reject is
  an `Except`.  A TS function whose body is entirely wrapped in
  `try/catch` (with no rethrow) therefore gets a total Lean type.
* Observable side effects that claims talk about (SQL commands issued,
  connections opened, error logs) are returned as explicit traces.
-/

/-- `QueryAnalyzerConfig`: the resolved, immutable settings bundle
(src/config/QueryAnalyzerConfig.ts). -/
structure QueryAnalyzerConfig where
  thresholdMs : Int
  apiEndpoint : String
  apiKey : String
  captureStack : Bool
  maxStack : Int
  maxQuery : Int
  timeoutMs : Int
  enableDev : Bool
  enableProd : Bool
  contextType : String
  logging : Bool
  executionPlanEnabled : Bool
  projectId : String
  queueConcurrency : Int
  queueIntervalCap : Int
  queueIntervalInMs : Int
  applicationName : Option String
  version : Option String
deriving Repr, DecidableEq

/-- `QueryAnalyzerConfig.validate` (lines 102-130): throws a descriptive
error on the first missing required field or non-positive numeric bound.
JS `!this.apiEndpoint` on a string is the empty-string test. -/
def QueryAnalyzerConfig.validate (c : QueryAnalyzerConfig) : Except String Unit :=
  if c.apiEndpoint = "" then .error "QUERY_ANALYZER_API_ENDPOINT is required"
  else if c.apiKey = "" then .error "QUERY_ANALYZER_API_KEY is required"
  else if c.projectId = "" then .error "QUERY_ANALYZER_PROJECT_ID is required"
  else if c.thresholdMs ≤ 0 then .error "QUERY_ANALYZER_THRESHOLD_MS must be greater than 0"
  else if c.maxStack ≤ 0 then .error "QUERY_ANALYZER_MAX_STACK must be greater than 0"
  else if c.maxQuery ≤ 0 then .error "QUERY_ANALYZER_MAX_QUERY must be greater than 0"
  else if c.timeoutMs ≤ 0 then .error "QUERY_ANALYZER_TIMEOUT_MS must be greater than 0"
  else .ok ()

/-- The process environment slice the pipeline reads: `process.env.NODE_ENV`
and `process.env.APP_ENV` (`none` = variable unset). -/
structure ProcessEnv where
  nodeEnv : Option String
  appEnv : Option String
deriving Repr, DecidableEq

/-- `QueryAnalyzerConfig.isEnabled` (lines 91-100): environment-sensitive
activation, reading only `NODE_ENV`. -/
def QueryAnalyzerConfig.isEnabled (c : QueryAnalyzerConfig) (env : ProcessEnv) : Bool :=
  let isDevelopment := env.nodeEnv == some "development"
  let isProduction := env.nodeEnv == some "production"
  if isDevelopment && c.enableDev then true
  else if isProduction && c.enableProd then true
  else if !isDevelopment && !isProduction && c.enableDev then true
  else false

/-- JS values as the sanitizer distinguishes them.  `date valid iso`
carries whether `toISOString()` succeeds and, when it does, the rendered
ISO-8601 string (an invalid `Date`'s `toISOString` throws).  `obj` is any
other value with `typeof === "object"`; `other s` is a value of any
remaining `typeof` (function/symbol/bigint), with `String(v) = s`. -/
inductive JSValue where
  | null
  | undefined
  | str (s : String)
  | num (n : Int)
  | bool (b : Bool)
  | date (valid : Bool) (iso : String)
  | obj
  | other (s : String)
deriving Repr, DecidableEq

/-- The `parameters` argument of the logger entry points: absent, a real
array, or some non-array value (`Array.isArray` false). -/
inductive JSArg where
  | arr (elems : List JSValue)
  | nonArray
deriving Repr, DecidableEq

/-- One iteration of the `parameters.forEach` body in
`sanitizeParameters` (lines 454-474), before its `try/catch`: classify
the value; `.error` means the classification itself threw. -/
def classifyParam : JSValue → Except Unit JSValue
  | .null => .ok .null
  | .undefined => .ok .undefined
  | .str s => .ok (.str s)
  | .num n => .ok (.num n)
  | .bool b => .ok (.bool b)
  | .date true iso => .ok (.str iso)
  | .date false _ => .error ()
  | .obj => .ok (.str "[Object]")
  | .other s => .ok (.str s)

/-- The `try/catch` around one `forEach` iteration: a throwing
classification is rendered as the `"[Unparseable]"` placeholder. -/
def sanitizeElem (i : Nat) (v : JSValue) : String × JSValue :=
  ("param_" ++ toString i,
   match classifyParam v with
   | .ok r => r
   | .error _ => .str "[Unparseable]")

/-- The indexed `forEach` loop of `sanitizeParameters`. -/
def sanitizeFrom (i : Nat) : List JSValue → List (String × JSValue)
  | [] => []
  | v :: vs => sanitizeElem i v :: sanitizeFrom (i + 1) vs

/-- `QueryAnalyzerLogger.sanitizeParameters` (lines 447-477): missing or
non-array input yields the empty mapping, otherwise the indexed loop. -/
def sanitizeParameters : Option JSArg → List (String × JSValue)
  | none => []
  | some .nonArray => []
  | some (.arr ps) => sanitizeFrom 0 ps

/-- Length of the parameter list an input denotes (0 when absent or not
an array). -/
def jsArgLength : Option JSArg → Nat
  | some (.arr ps) => ps.length
  | _ => 0

/-- The fixed truncation marker appended by `truncateQuery`. -/
def truncationMarker : String := "... [TRUNCATED]"

/-- `QueryAnalyzerLogger.truncateQuery` (lines 439-445):
`query.substring(0, maxQuery) + "... [TRUNCATED]"` when the length
exceeds `maxQuery`. -/
def truncateQuery (c : QueryAnalyzerConfig) (query : String) : String :=
  if (query.length : Int) ≤ c.maxQuery then query
  else ⟨query.data.take c.maxQuery.toNat⟩ ++ truncationMarker

/-- The `planFormat` descriptor of an execution-plan artifact
(src/utils/ExecutionPlanService.ts, `ExecutionPlanResult`). -/
structure PlanFormat where
  contentType : String
  fileExtension : String
  description : String
deriving Repr, DecidableEq

/-- `ExecutionPlanResult` (src/utils/ExecutionPlanService.ts lines 3-11). -/
structure ExecutionPlanResult where
  databaseProvider : String
  planFormat : PlanFormat
  content : String
deriving Repr, DecidableEq

/-- A raw result coming back from the database driver: either already a
string or a structured value (rows/JSON), identified by an opaque tag. -/
inductive RawResult where
  | str (s : String)
  | structured (tag : String)
deriving Repr, DecidableEq

/-- Observable database-side steps taken by `ExecutionPlanService` during
one `captureExecutionPlan` call. -/
inductive DbStep where
  | initConnection
  | connectRunner
  | execQuery (sql : String)
  | releaseRunner
deriving Repr, DecidableEq

/-- Error-level / warn-level log lines the pipeline can emit. -/
inductive LogEvent where
  | warnCaptureFailed
  | errorQueueAddFailed
  | errorWebhookStatus (status : Nat)
  | errorWebhookTimeout
  | errorWebhookNoResponse
  | errorWebhookMessage
  | errorWebhookUnexpected
deriving Repr, DecidableEq

/-- Outcome oracle for the side database connection: whether
`DataSource.initialize` / `QueryRunner.connect` reject, what each issued
SQL command returns (or the rejection it produces), and the behaviour of
`JSON.stringify` / `String(...)` on raw results. -/
structure DbWorld where
  initOutcome : Except String Unit
  connectOutcome : Except String Unit
  queryOutcome : String → Except String RawResult
  stringifyOutcome : RawResult → Except String String
  stringOf : RawResult → String

/-- `ExecutionPlanService.isSqlDatabase` (lines 82-92). -/
def isSqlDatabase (dbType : String) : Bool :=
  ["mysql", "postgres", "mariadb", "sqlite", "mssql", "oracle"].contains dbType

/-- `ExecutionPlanService.buildExplainQuery` (lines 94-112): the fixed
dialect → EXPLAIN-command table, with `EXPLAIN <query>` as default. -/
def buildExplainQuery (dbType query : String) : String :=
  if dbType = "mysql" ∨ dbType = "mariadb" then "EXPLAIN FORMAT=JSON " ++ query
  else if dbType = "postgres" then "EXPLAIN (FORMAT JSON) " ++ query
  else if dbType = "sqlite" then "EXPLAIN QUERY PLAN " ++ query
  else if dbType = "oracle" then "EXPLAIN PLAN FOR " ++ query
  else "EXPLAIN " ++ query

/-- `ExecutionPlanService.getPlanFormat` (lines 114-141). -/
def getPlanFormat (dbType : String) : PlanFormat :=
  if dbType = "mysql" ∨ dbType = "mariadb" ∨ dbType = "postgres" then
    ⟨"application/json", ".json", "JSON"⟩
  else if dbType = "mssql" then ⟨"application/xml", ".xml", "XML"⟩
  else ⟨"text/plain", ".txt", "TEXT"⟩

/-- `ExecutionPlanService.formatExplainResult` (lines 160-180):
`JSON.stringify(result, null, 2)` for the JSON dialects, string results
passed through otherwise; a throwing stringify falls back to
`String(result)` via the surrounding `try/catch`. -/
def formatExplainResult (w : DbWorld) (dbType : String) (r : RawResult) : String :=
  if dbType = "mysql" ∨ dbType = "mariadb" ∨ dbType = "postgres" then
    match w.stringifyOutcome r with
    | .ok s => s
    | .error _ => w.stringOf r
  else
    match r with
    | .str s => s
    | .structured _ =>
      match w.stringifyOutcome r with
      | .ok s => s
      | .error _ => w.stringOf r

/-- The `SET SHOWPLAN_XML ON` command of the mssql path. -/
def showplanOn : String := "SET SHOWPLAN_XML ON"

/-- The `SET SHOWPLAN_XML OFF` command of the mssql path. -/
def showplanOff : String := "SET SHOWPLAN_XML OFF"

/-- The `catch` block of `captureExecutionPlanForMssql` (lines 154-157):
issue `SET SHOWPLAN_XML OFF`, then rethrow the original error `e` — a
rejecting OFF replaces the error with its own. `pre` is the trace of
steps already taken in the `try` block. -/
def mssqlCatchOff (w : DbWorld) (e : String) (pre : List DbStep) :
    Except String RawResult × List DbStep :=
  match w.queryOutcome showplanOff with
  | .error e2 => (.error e2, pre ++ [.execQuery showplanOff])
  | .ok _ => (.error e, pre ++ [.execQuery showplanOff])

/-- `ExecutionPlanService.captureExecutionPlanForMssql` (lines 143-158):
`SET SHOWPLAN_XML ON`, the original query verbatim, `SET SHOWPLAN_XML
OFF`; the `catch` block re-issues OFF before rethrowing. -/
def captureExecutionPlanForMssql (w : DbWorld) (query : String) :
    Except String RawResult × List DbStep :=
  match w.queryOutcome showplanOn with
  | .error e => mssqlCatchOff w e [.execQuery showplanOn]
  | .ok _ =>
    match w.queryOutcome query with
    | .error e => mssqlCatchOff w e [.execQuery showplanOn, .execQuery query]
    | .ok res =>
      match w.queryOutcome showplanOff with
      | .error e =>
        mssqlCatchOff w e
          [.execQuery showplanOn, .execQuery query, .execQuery showplanOff]
      | .ok _ =>
        (.ok res, [.execQuery showplanOn, .execQuery query, .execQuery showplanOff])

/-- `ExecutionPlanService.captureExecutionPlan` (lines 37-80) on a fresh
service: non-SQL dialects return `null` before any connection work; the
`try/catch/finally` turns every rejection of the connection, runner or
EXPLAIN command into a `null` result plus a warn log, releasing the
runner whenever one was created.  Returns (result, db-step trace, log
trace). -/
def captureExecutionPlan (dbType : String) (w : DbWorld) (query : String) :
    Option ExecutionPlanResult × List DbStep × List LogEvent :=
  if isSqlDatabase dbType = false then (none, [], [])
  else
    match w.initOutcome with
    | .error _ => (none, [.initConnection], [.warnCaptureFailed])
    | .ok _ =>
      match w.connectOutcome with
      | .error _ => (none, [.initConnection, .connectRunner, .releaseRunner], [.warnCaptureFailed])
      | .ok _ =>
        if dbType = "mssql" then
          match captureExecutionPlanForMssql w query with
          | (.error _, steps) =>
            (none, .initConnection :: .connectRunner :: steps ++ [.releaseRunner],
             [.warnCaptureFailed])
          | (.ok res, steps) =>
            (some ⟨dbType, getPlanFormat dbType, formatExplainResult w dbType res⟩,
             .initConnection :: .connectRunner :: steps ++ [.releaseRunner], [])
        else
          match w.queryOutcome (buildExplainQuery dbType query) with
          | .error _ =>
            (none,
             [.initConnection, .connectRunner, .execQuery (buildExplainQuery dbType query),
              .releaseRunner],
             [.warnCaptureFailed])
          | .ok res =>
            (some ⟨dbType, getPlanFormat dbType, formatExplainResult w dbType res⟩,
             [.initConnection, .connectRunner, .execQuery (buildExplainQuery dbType query),
              .releaseRunner],
             [])

/-- Outcome of the one `axios.post` a `WebhookSender.send` call performs:
a resolved response with its status, or one of the rejection shapes the
`catch` block distinguishes (src/utils/WebhookSender.ts lines 40-58). -/
inductive HttpOutcome where
  | ok (status : Nat)
  | timeout
  | errorResponse (status : Nat)
  | noResponse
  | axiosOther
  | nonAxios
deriving Repr, DecidableEq

/-- `WebhookSender.send` (lines 27-60): one POST, every outcome logged
and swallowed — the whole body is inside `try/catch` with no rethrow, so
the function always resolves; its value is the log lines it emits. -/
def WebhookSender.send (ho : HttpOutcome) : List LogEvent :=
  match ho with
  | .ok status => if 400 ≤ status then [.errorWebhookStatus status] else []
  | .timeout => [.errorWebhookTimeout]
  | .errorResponse status => [.errorWebhookStatus status]
  | .noResponse => [.errorWebhookNoResponse]
  | .axiosOther => [.errorWebhookMessage]
  | .nonAxios => [.errorWebhookUnexpected]

/-- Whether the HTTP outcome is a delivery failure (status ≥ 400 or any
rejection). -/
def webhookDeliveryFailed (ho : HttpOutcome) : Bool :=
  match ho with
  | .ok status => 400 ≤ status
  | _ => true

/-- Result of one `QueuedWebhookSender.send` call: the log lines emitted,
how many times the underlying `WebhookSender.send` ran inside the queued
task, and how many times it ran as the unqueued fallback. -/
structure QueuedSendOutcome where
  logs : List LogEvent
  queuedTaskSends : Nat
  fallbackSends : Nat
deriving Repr, DecidableEq

/-- `QueuedWebhookSender.send` (lines 92-105): `queue.add` the send task;
if the add call throws or rejects, log it and fall back to one direct
`webhookSender.send`.  Both the queued task's send and the fallback send
are total (`WebhookSender.send` swallows every outcome), so the inner
`catch (fallbackError)` is unreachable and `send` itself always
resolves. `addOutcome` is the queue-insertion oracle. -/
def QueuedWebhookSender.send (addOutcome : Except String Unit) (ho : HttpOutcome) :
    QueuedSendOutcome :=
  match addOutcome with
  | .ok _ => ⟨WebhookSender.send ho, 1, 0⟩
  | .error _ => ⟨.errorQueueAddFailed :: WebhookSender.send ho, 0, 1⟩

/-- The state a constructed `MockWebhookSender` holds (src/utils/WebhookSender.ts
lines 108-138): its config and the queue options derived from it. -/
structure MockWebhookSenderState where
  config : QueryAnalyzerConfig
  concurrency : Int
  intervalCap : Option Int
  interval : Option Int
deriving Repr, DecidableEq

/-- `MockWebhookSender`'s constructor (lines 112-138).  Its `config`
parameter is required and dereferenced immediately
(`config.queueConcurrency`); invoked without an argument — as compiled
JavaScript permits — `config` is `undefined` and the property read
throws a `TypeError`. -/
def MockWebhookSender.construct (config : Option QueryAnalyzerConfig) :
    Except String MockWebhookSenderState :=
  match config with
  | none => .error "TypeError: Cannot read properties of undefined (reading queueConcurrency)"
  | some c =>
    .ok { config := c
          concurrency := c.queueConcurrency
          intervalCap := if 0 < c.queueIntervalCap then some c.queueIntervalCap else none
          interval := if 0 < c.queueIntervalCap then some c.queueIntervalInMs else none }

/-- Which webhook sender a constructed logger ended up with. -/
inductive SenderKind where
  | provided
  | real (config : QueryAnalyzerConfig)
  | mock (st : MockWebhookSenderState)
deriving Repr, DecidableEq

/-- The state a constructed `QueryAnalyzerLogger` holds. -/
structure LoggerState where
  config : QueryAnalyzerConfig
  webhookSender : SenderKind
  executionPlanService : Option String
deriving Repr, DecidableEq

/-- `QueryAnalyzerLogger`'s constructor (src/interceptors/QueryAnalyzerLogger.ts
lines 214-236): validate the config; on success use the provided sender
or a real `WebhookSender`; on a validation error the `catch` block logs
a warning and constructs `new MockWebhookSender()` — with no argument.
An exception raised by that mock construction is not caught by anything,
so it escapes the constructor.  `dataSourceType` is the dialect of
`options.dataSourceOptions` when supplied. -/
def QueryAnalyzerLogger.construct (config : QueryAnalyzerConfig)
    (providedSender : Bool) (dataSourceType : Option String) :
    Except String LoggerState :=
  let sender : Except String SenderKind :=
    match config.validate with
    | .ok _ => .ok (if providedSender then .provided else .real config)
    | .error _ =>
      match MockWebhookSender.construct none with
      | .ok st => .ok (.mock st)
      | .error e => .error e
  match sender with
  | .error e => .error e
  | .ok s =>
    .ok { config := config
          webhookSender := s
          executionPlanService :=
            if config.executionPlanEnabled then dataSourceType else none }

/-- Per-call effect observations of payload construction that no claim
constrains in detail: the filtered stack snapshot, the generated UUID and
the capture-time ISO timestamp. -/
structure Effects where
  capturedStack : List String
  uuid : String
  now : String
deriving Repr, DecidableEq

/-- `TReportPayload` (src/types/TReportPayload.ts, second revision):
`executionPlan` is a required field of the payload type. -/
structure TReportPayload where
  queryId : String
  rawQuery : String
  parameters : List (String × JSValue)
  executionTimeMs : Int
  stackTrace : List String
  timestamp : String
  contextType : String
  environment : String
  applicationName : Option String
  version : Option String
  executionPlan : ExecutionPlanResult
deriving Repr, DecidableEq

/-- The fixed neutral `defaultExecutionPlan` of `createReportPayload`
(lines 328-336). -/
def defaultExecutionPlan : ExecutionPlanResult :=
  ⟨"unknown", ⟨"text/plain", ".txt", "TEXT"⟩, ""⟩

/-- `QueryAnalyzerLogger.createReportPayload` (lines 307-351).  `svc` is
the logger's `executionPlanService` field (the dialect tag when the
service exists).  The `try/catch` around `captureExecutionPlan` leaves
`executionPlan` at `null` on a throw; our embedded capture is total, so
only its `null` result feeds the `executionPlan || defaultExecutionPlan`
fallback.  `environment` is `NODE_ENV ?? APP_ENV ?? "unknown"`. -/
def createReportPayload (config : QueryAnalyzerConfig) (env : ProcessEnv)
    (svc : Option String) (w : DbWorld) (fx : Effects)
    (executionTimeMs : Int) (query : String) (parameters : Option JSArg) :
    TReportPayload :=
  let stackTrace := if config.captureStack then fx.capturedStack else []
  let truncatedQuery := truncateQuery config query
  let safeParameters := sanitizeParameters parameters
  let executionPlan : Option ExecutionPlanResult :=
    match svc with
    | some dbType => (captureExecutionPlan dbType w query).1
    | none => none
  { queryId := fx.uuid
    rawQuery := truncatedQuery
    parameters := safeParameters
    executionTimeMs := executionTimeMs
    stackTrace := stackTrace
    timestamp := fx.now
    contextType := config.contextType
    environment :=
      match env.nodeEnv with
      | some s => s
      | none =>
        match env.appEnv with
        | some s => s
        | none => "unknown"
    applicationName := config.applicationName
    version := config.version
    executionPlan := executionPlan.getD defaultExecutionPlan }

/-- `QueryAnalyzerLogger.logQuerySlow` (lines 261-266): below threshold
or disabled in this environment, return without building anything;
otherwise `handleSlowQuery` builds the payload and hands it to the
webhook sender.  `some payload` = the payload that is built and
forwarded; `none` = no payload built, nothing delivered. -/
def logQuerySlow (config : QueryAnalyzerConfig) (env : ProcessEnv)
    (svc : Option String) (w : DbWorld) (fx : Effects)
    (time : Int) (query : String) (parameters : Option JSArg) :
    Option TReportPayload :=
  if !config.isEnabled env || time < config.thresholdMs then none
  else some (createReportPayload config env svc w fx time query parameters)

/-- A small valid configuration used to instantiate universally
quantified statements on concrete inputs. -/
def cfgA : QueryAnalyzerConfig :=
  ⟨1000, "https://monitoring.example/api", "sk-key", false, 15, 3, 10000,
   true, false, "app-postgres", false, false, "proj-1", 3, 1, 1000, none, none⟩

/-- A configuration whose `apiEndpoint` is missing, so `validate` throws. -/
def cfgBad : QueryAnalyzerConfig :=
  ⟨1000, "", "sk-key", false, 15, 3, 10000,
   true, false, "app-postgres", false, false, "proj-1", 3, 1, 1000, none, none⟩

/-- A side-connection world where every step succeeds. -/
def dbWorldOk : DbWorld :=
  ⟨.ok (), .ok (), fun _ => .ok (.str "plan-row"), fun _ => .ok "stringified-json",
   fun _ => "[object Object]"⟩

/-- `QueryAnalyzerConfig.isEnabled` written as the claim's case split on
`NODE_ENV`. -/
theorem isEnabled_cases (c : QueryAnalyzerConfig) (env : ProcessEnv) :
    c.isEnabled env
      = if env.nodeEnv = some "development" then c.enableDev
        else if env.nodeEnv = some "production" then c.enableProd
        else c.enableDev := by
  by_cases hd : env.nodeEnv = some "development"
  · simp [QueryAnalyzerConfig.isEnabled, hd]
  · by_cases hp : env.nodeEnv = some "production"
    · simp [QueryAnalyzerConfig.isEnabled, hp]
    · have hd' : (env.nodeEnv == some "development") = false := by
        simpa using hd
      have hp' : (env.nodeEnv == some "production") = false := by
        simpa using hp
      simp [QueryAnalyzerConfig.isEnabled, hd, hp, hd', hp']

/-- `logQuerySlow` forwards a payload exactly when activation holds and
the duration reaches the threshold. -/
theorem logQuerySlow_isSome (c : QueryAnalyzerConfig) (env : ProcessEnv)
    (svc : Option String) (w : DbWorld) (fx : Effects)
    (t : Int) (q : String) (p : Option JSArg) :
    (logQuerySlow c env svc w fx t q p).isSome
      = (c.isEnabled env && decide (c.thresholdMs ≤ t)) := by
  by_cases hE : c.isEnabled env
  · by_cases hT : t < c.thresholdMs
    · simp [logQuerySlow, hE, hT, not_le.mpr hT]
    · simp [logQuerySlow, hE, hT, not_lt.mp hT]
  · simp [logQuerySlow, hE]

/-- C7: the EXPLAIN command issued follows the fixed dialect table —
mysql and mariadb issue `EXPLAIN FORMAT=JSON <query>`, postgres a command
beginning with `EXPLAIN (FORMAT JSON)`, sqlite `EXPLAIN QUERY PLAN
<query>`, oracle `EXPLAIN PLAN FOR <query>`, and any dialect outside the
table falls to the default row `EXPLAIN <query>`. -/
theorem c7_buildExplainQuery_table (q : String) :
    buildExplainQuery "mysql" q = "EXPLAIN FORMAT=JSON " ++ q ∧
    buildExplainQuery "mariadb" q = "EXPLAIN FORMAT=JSON " ++ q ∧
    buildExplainQuery "postgres" q = "EXPLAIN (FORMAT JSON) " ++ q ∧
    buildExplainQuery "sqlite" q = "EXPLAIN QUERY PLAN " ++ q ∧
    buildExplainQuery "oracle" q = "EXPLAIN PLAN FOR " ++ q ∧
    ∀ t : String,
      t ∉ (["mysql", "mariadb", "postgres", "sqlite", "oracle"] : List String) →
      buildExplainQuery t q = "EXPLAIN " ++ q := by
  refine ⟨by simp [buildExplainQuery], by simp [buildExplainQuery],
    by simp [buildExplainQuery], by simp [buildExplainQuery],
    by simp [buildExplainQuery], ?_⟩
  intro t ht
  simp only [List.mem_cons, List.not_mem_nil, or_false, not_or] at ht
  obtain ⟨h1, h2, h3, h4, h5⟩ := ht
  unfold buildExplainQuery
  rw [if_neg (not_or.mpr ⟨h1, h2⟩), if_neg h3, if_neg h4, if_neg h5]

/-- Witness for C7 at a concrete dialect outside the table and a
concrete query. -/
theorem c7_buildExplainQuery_table_witness :
    buildExplainQuery "postgres" "SELECT 1" = "EXPLAIN (FORMAT JSON) SELECT 1" ∧
    buildExplainQuery "cockroachdb" "SELECT 1" = "EXPLAIN SELECT 1" := by
  have h := c7_buildExplainQuery_table "SELECT 1"
  exact ⟨h.2.2.1, h.2.2.2.2.2 "cockroachdb" (by decide)⟩

/-- C9: a query no longer than `maxQuery` is returned unchanged; a longer
query is cut to its first `maxQuery` characters followed by the fixed
`"... [TRUNCATED]"` marker, so the result length is exactly
`maxQuery + length "... [TRUNCATED]"`. -/
theorem c9_truncateQuery_spec (c : QueryAnalyzerConfig) (q : String)
    (hpos : 0 < c.maxQuery) :
    ((q.length : Int) ≤ c.maxQuery → truncateQuery c q = q) ∧
    (c.maxQuery < (q.length : Int) →
      truncateQuery c q = ⟨q.data.take c.maxQuery.toNat⟩ ++ truncationMarker ∧
      ((truncateQuery c q).length : Int) = c.maxQuery + (truncationMarker.length : Int)) := by
  constructor
  · intro h
    simp [truncateQuery, h]
  · intro h
    have hn : ¬ ((q.length : Int) ≤ c.maxQuery) := not_le.mpr h
    have heq : truncateQuery c q = ⟨q.data.take c.maxQuery.toNat⟩ ++ truncationMarker := by
      rw [truncateQuery, if_neg hn]
    refine ⟨heq, ?_⟩
    rw [heq]
    have hdata : q.data.length = q.length := rfl
    have hle : c.maxQuery.toNat ≤ q.data.length := by
      rw [hdata]
      exact Int.toNat_le.mpr (le_of_lt h)
    rw [String.length_append]
    have h1 : (String.mk (q.data.take c.maxQuery.toNat)).length = c.maxQuery.toNat := by
      show (q.data.take c.maxQuery.toNat).length = c.maxQuery.toNat
      rw [List.length_take]
      exact Nat.min_eq_left hle
    rw [h1]
    push_cast
    rw [Int.toNat_of_nonneg hpos.le]

/-- Witness for C9 on a concrete configuration (`maxQuery = 3`) and the
concrete query `"SELECT 1"`. -/
theorem c9_truncateQuery_spec_witness :
    truncateQuery cfgA "SELECT 1" = ⟨"SELECT 1".data.take cfgA.maxQuery.toNat⟩ ++ truncationMarker ∧
    ((truncateQuery cfgA "SELECT 1").length : Int) = cfgA.maxQuery + (truncationMarker.length : Int) :=
  (c9_truncateQuery_spec cfgA "SELECT 1" (by decide)).2 (by decide)

/-- The indexed loop preserves length. -/
theorem sanitizeFrom_length (j : Nat) (ps : List JSValue) :
    (sanitizeFrom j ps).length = ps.length := by
  induction ps generalizing j with
  | nil => rfl
  | cons v vs ih => simp [sanitizeFrom, ih]

/-- Element `i` of the loop output is the sanitized element `i` of the
input, keyed by the running index. -/
theorem sanitizeFrom_get? (j : Nat) (ps : List JSValue) (i : Nat) :
    (sanitizeFrom j ps)[i]? = ps[i]?.map fun v => sanitizeElem (j + i) v := by
  induction ps generalizing j i with
  | nil => simp [sanitizeFrom]
  | cons v vs ih =>
    cases i with
    | zero => simp [sanitizeFrom]
    | succ k =>
      have harith : j + 1 + k = j + (k + 1) := by omega
      simp [sanitizeFrom, ih (j + 1) k, harith]

/-- The keys produced by the loop are `param_j, param_{j+1}, …` in
order. -/
theorem sanitizeFrom_keys (j : Nat) (ps : List JSValue) :
    (sanitizeFrom j ps).map Prod.fst
      = (List.range ps.length).map (fun i => "param_" ++ toString (j + i)) := by
  induction ps generalizing j with
  | nil => simp [sanitizeFrom]
  | cons v vs ih =>
    simp only [sanitizeFrom, List.map_cons, List.length_cons,
      List.range_succ_eq_map, List.map_map, ih (j + 1)]
    congr 1
    apply List.map_congr_left
    intro a _
    have harith : j + 1 + a = j + (a + 1) := by omega
    simp [Function.comp, harith]

/-- C3: `sanitizeParameters` never throws (it is total) and returns a
mapping whose keys are exactly `param_0 .. param_{n-1}` in input order,
with output size equal to input length; values are classified by
priority — null/undefined and string/number/boolean as-is, valid dates
as their ISO-8601 string, other `typeof "object"` values as
`"[Object]"`, and any element whose classification throws as
`"[Unparseable]"`; a missing or non-array input yields the empty
mapping. -/
theorem c3_sanitizeParameters_spec (input : Option JSArg) :
    (sanitizeParameters input).length = jsArgLength input ∧
    (sanitizeParameters input).map Prod.fst
      = (List.range (jsArgLength input)).map (fun i => "param_" ++ toString i) ∧
    ((input = none ∨ input = some .nonArray) → sanitizeParameters input = []) ∧
    (∀ (ps : List JSValue) (i : Nat) (v : JSValue), input = some (.arr ps) →
      ps[i]? = some v →
      (v = .null ∨ v = .undefined ∨ (∃ s, v = .str s) ∨ (∃ n, v = .num n) ∨
        (∃ b, v = .bool b)) →
      (sanitizeParameters input)[i]? = some ("param_" ++ toString i, v)) ∧
    (∀ (ps : List JSValue) (i : Nat) (iso : String), input = some (.arr ps) →
      ps[i]? = some (.date true iso) →
      (sanitizeParameters input)[i]? = some ("param_" ++ toString i, .str iso)) ∧
    (∀ (ps : List JSValue) (i : Nat), input = some (.arr ps) → ps[i]? = some .obj →
      (sanitizeParameters input)[i]? = some ("param_" ++ toString i, .str "[Object]")) ∧
    (∀ (ps : List JSValue) (i : Nat) (v : JSValue), input = some (.arr ps) →
      ps[i]? = some v → classifyParam v = .error () →
      (sanitizeParameters input)[i]? = some ("param_" ++ toString i, .str "[Unparseable]")) := by
  refine ⟨?_, ?_, ?_, ?_, ?_, ?_, ?_⟩
  · rcases input with _ | arg
    · rfl
    · rcases arg with ps | _
      · exact sanitizeFrom_length 0 ps
      · rfl
  · rcases input with _ | arg
    · simp [sanitizeParameters, jsArgLength]
    · rcases arg with ps | _
      · simpa [sanitizeParameters, jsArgLength, Nat.zero_add] using sanitizeFrom_keys 0 ps
      · simp [sanitizeParameters, jsArgLength]
  · rintro (rfl | rfl) <;> rfl
  · rintro ps i v rfl hv hcls
    show (sanitizeFrom 0 ps)[i]? = _
    rw [sanitizeFrom_get?, hv]
    rcases hcls with rfl | rfl | ⟨s, rfl⟩ | ⟨n, rfl⟩ | ⟨b, rfl⟩ <;>
      simp [sanitizeElem, classifyParam, Nat.zero_add]
  · rintro ps i iso rfl hv
    show (sanitizeFrom 0 ps)[i]? = _
    rw [sanitizeFrom_get?, hv]
    simp [sanitizeElem, classifyParam, Nat.zero_add]
  · rintro ps i rfl hv
    show (sanitizeFrom 0 ps)[i]? = _
    rw [sanitizeFrom_get?, hv]
    simp [sanitizeElem, classifyParam, Nat.zero_add]
  · rintro ps i v rfl hv herr
    show (sanitizeFrom 0 ps)[i]? = _
    rw [sanitizeFrom_get?, hv]
    simp [sanitizeElem, herr, Nat.zero_add]

/-- A concrete parameter list exercising every classification branch. -/
def paramsW : List JSValue :=
  [.num 42, .null, .date true "2020-01-02T03:04:05.000Z", .obj, .date false ""]

/-- Witness for C3 on a concrete parameter array (and on an absent
input). -/
theorem c3_sanitizeParameters_spec_witness :
    (sanitizeParameters (some (.arr paramsW))).length = jsArgLength (some (.arr paramsW)) ∧
    (sanitizeParameters (some (.arr paramsW)))[0]? = some ("param_" ++ toString 0, .num 42) ∧
    (sanitizeParameters (some (.arr paramsW)))[1]? = some ("param_" ++ toString 1, .null) ∧
    (sanitizeParameters (some (.arr paramsW)))[2]?
      = some ("param_" ++ toString 2, .str "2020-01-02T03:04:05.000Z") ∧
    (sanitizeParameters (some (.arr paramsW)))[3]? = some ("param_" ++ toString 3, .str "[Object]") ∧
    (sanitizeParameters (some (.arr paramsW)))[4]?
      = some ("param_" ++ toString 4, .str "[Unparseable]") ∧
    sanitizeParameters none = [] := by
  have h := c3_sanitizeParameters_spec (some (.arr paramsW))
  have h0 := c3_sanitizeParameters_spec none
  exact ⟨h.1,
    h.2.2.2.1 paramsW 0 (.num 42) rfl rfl (Or.inr (Or.inr (Or.inr (Or.inl ⟨42, rfl⟩)))),
    h.2.2.2.1 paramsW 1 .null rfl rfl (Or.inl rfl),
    h.2.2.2.2.1 paramsW 2 "2020-01-02T03:04:05.000Z" rfl rfl,
    h.2.2.2.2.2.1 paramsW 3 rfl rfl,
    h.2.2.2.2.2.2 paramsW 4 (.date false "") rfl rfl rfl,
    h0.2.2.1 (Or.inl rfl)⟩

/-- C2: `logQuerySlow` builds and forwards a payload exactly when the
duration reaches `thresholdMs` and the configuration is enabled for the
current environment — `NODE_ENV = "development"` requires `enableDev`,
`NODE_ENV = "production"` requires `enableProd`, and any other or absent
`NODE_ENV` follows `enableDev` alone; in particular below the threshold
nothing is built or delivered regardless of the flags. -/
theorem c2_logQuerySlow_activation (c : QueryAnalyzerConfig) (env : ProcessEnv)
    (svc : Option String) (w : DbWorld) (fx : Effects)
    (time : Int) (q : String) (p : Option JSArg) :
    (logQuerySlow c env svc w fx time q p).isSome
      = (decide (c.thresholdMs ≤ time) &&
         (if env.nodeEnv = some "development" then c.enableDev
          else if env.nodeEnv = some "production" then c.enableProd
          else c.enableDev)) := by
  rw [logQuerySlow_isSome, isEnabled_cases, Bool.and_comm]

/-- C10: activation and the report decision depend only on `NODE_ENV`,
never on `APP_ENV`; `APP_ENV` only feeds the payload's `environment`
field, as a fallback when `NODE_ENV` is unset. -/
theorem c10_appEnv_noninterference (c : QueryAnalyzerConfig)
    (svc : Option String) (w : DbWorld) (fx : Effects)
    (time : Int) (q : String) (p : Option JSArg)
    (e1 e2 : ProcessEnv) (h : e1.nodeEnv = e2.nodeEnv) :
    c.isEnabled e1 = c.isEnabled e2 ∧
    (logQuerySlow c e1 svc w fx time q p).isSome
      = (logQuerySlow c e2 svc w fx time q p).isSome ∧
    (∀ env : ProcessEnv, env.nodeEnv = none →
      (createReportPayload c env svc w fx time q p).environment
        = env.appEnv.getD "unknown") ∧
    (∀ (env : ProcessEnv) (s : String), env.nodeEnv = some s →
      (createReportPayload c env svc w fx time q p).environment = s) := by
  have hEn : c.isEnabled e1 = c.isEnabled e2 := by
    rw [isEnabled_cases, isEnabled_cases, h]
  refine ⟨hEn, ?_, ?_, ?_⟩
  · rw [logQuerySlow_isSome, logQuerySlow_isSome, hEn]
  · intro env henv
    rcases hap : env.appEnv with _ | s <;> simp [createReportPayload, henv, hap]
  · intro env s henv
    simp [createReportPayload, henv]

/-- Witness for C10: two concrete environments differing only in
`APP_ENV` produce the same activation and report decision, and `APP_ENV`
fills the `environment` field only when `NODE_ENV` is unset. -/
theorem c10_appEnv_noninterference_witness :
    cfgA.isEnabled ⟨some "production", some "staging"⟩
      = cfgA.isEnabled ⟨some "production", none⟩ ∧
    (logQuerySlow cfgA ⟨some "production", some "staging"⟩ none dbWorldOk ⟨[], "id", "ts"⟩
        1500 "SELECT 1" none).isSome
      = (logQuerySlow cfgA ⟨some "production", none⟩ none dbWorldOk ⟨[], "id", "ts"⟩
        1500 "SELECT 1" none).isSome ∧
    (createReportPayload cfgA ⟨none, some "staging"⟩ none dbWorldOk ⟨[], "id", "ts"⟩
        1500 "SELECT 1" none).environment = (some "staging").getD "unknown" := by
  have h := c10_appEnv_noninterference cfgA none dbWorldOk ⟨[], "id", "ts"⟩
    1500 "SELECT 1" none ⟨some "production", some "staging"⟩ ⟨some "production", none⟩ rfl
  have h2 := c10_appEnv_noninterference cfgA none dbWorldOk ⟨[], "id", "ts"⟩
    1500 "SELECT 1" none ⟨none, some "staging"⟩ ⟨none, some "staging"⟩ rfl
  exact ⟨h.1, h.2.1, h2.2.2.1 ⟨none, some "staging"⟩ rfl⟩

/-- C5: the built report payload always carries an `executionPlan` — the
retrieved result when capture succeeded, and otherwise (service absent
because plan capture is disabled, or capture yielded nothing) the fixed
neutral default with provider `"unknown"`, TEXT format and empty
content.  The field is never absent: `TReportPayload.executionPlan` is a
required field. -/
theorem c5_executionPlan_never_absent (c : QueryAnalyzerConfig) (env : ProcessEnv)
    (w : DbWorld) (fx : Effects) (t : Int) (q : String) (p : Option JSArg) :
    (createReportPayload c env none w fx t q p).executionPlan = defaultExecutionPlan ∧
    (∀ db : String, (createReportPayload c env (some db) w fx t q p).executionPlan
        = ((captureExecutionPlan db w q).1).getD defaultExecutionPlan) ∧
    (∀ (db : String) (r : ExecutionPlanResult), (captureExecutionPlan db w q).1 = some r →
      (createReportPayload c env (some db) w fx t q p).executionPlan = r) ∧
    defaultExecutionPlan = ⟨"unknown", ⟨"text/plain", ".txt", "TEXT"⟩, ""⟩ := by
  refine ⟨?_, ?_, ?_, rfl⟩
  · simp [createReportPayload]
  · intro db
    simp [createReportPayload]
  · intro db r h
    simp [createReportPayload, h]

/-- Witness for C5: with plan capture disabled the payload carries the
`"unknown"`/TEXT/empty default; with a successful postgres capture it
carries exactly the retrieved result. -/
theorem c5_executionPlan_never_absent_witness :
    (createReportPayload cfgA ⟨none, none⟩ none dbWorldOk ⟨[], "id", "ts"⟩
        1500 "SELECT 1" none).executionPlan = defaultExecutionPlan ∧
    (captureExecutionPlan "postgres" dbWorldOk "SELECT 1").1
      = some ⟨"postgres", ⟨"application/json", ".json", "JSON"⟩, "stringified-json"⟩ ∧
    (createReportPayload cfgA ⟨none, none⟩ (some "postgres") dbWorldOk ⟨[], "id", "ts"⟩
        1500 "SELECT 1" none).executionPlan
      = ⟨"postgres", ⟨"application/json", ".json", "JSON"⟩, "stringified-json"⟩ := by
  have h := c5_executionPlan_never_absent cfgA ⟨none, none⟩ dbWorldOk ⟨[], "id", "ts"⟩
    1500 "SELECT 1" none
  exact ⟨h.1, rfl, h.2.2.1 "postgres" _ rfl⟩

/-- C4: when the queue-add call throws or rejects, `QueuedWebhookSender.send`
invokes the underlying `WebhookSender`'s direct send exactly once as a
fallback; a failing fallback is logged and the payload dropped, with no
retry and no error propagated (the function is total — every failure
path ends in a log). -/
theorem c4_queue_add_failure_fallback (e : String) (ho : HttpOutcome) :
    (QueuedWebhookSender.send (.error e) ho).fallbackSends = 1 ∧
    (QueuedWebhookSender.send (.error e) ho).queuedTaskSends = 0 ∧
    (QueuedWebhookSender.send (.error e) ho).logs
      = LogEvent.errorQueueAddFailed :: WebhookSender.send ho ∧
    (webhookDeliveryFailed ho = true → WebhookSender.send ho ≠ []) ∧
    (QueuedWebhookSender.send (.ok ()) ho).fallbackSends = 0 := by
  refine ⟨rfl, rfl, rfl, ?_, rfl⟩
  intro hfail
  cases ho <;> simp_all [webhookDeliveryFailed, WebhookSender.send]

/-- Witness for C4: a concrete queue failure followed by an HTTP timeout
yields exactly one fallback send, the queue-failure log plus the logged
timeout, and nothing else. -/
theorem c4_queue_add_failure_fallback_witness :
    (QueuedWebhookSender.send (.error "QueueError") .timeout).fallbackSends = 1 ∧
    (QueuedWebhookSender.send (.error "QueueError") .timeout).logs
      = [LogEvent.errorQueueAddFailed, LogEvent.errorWebhookTimeout] ∧
    webhookDeliveryFailed .timeout = true ∧
    WebhookSender.send .timeout ≠ [] := by
  have h := c4_queue_add_failure_fallback "QueueError" .timeout
  exact ⟨h.1, by rw [h.2.2.1]; rfl, rfl, h.2.2.2.1 rfl⟩

/-- C6: `captureExecutionPlan` is a no-op (nothing returned, no database
step taken) for a dialect outside the recognized SQL set; any rejection
of the connection setup, the runner connect or the issued EXPLAIN/plan
command is caught and yields nothing; and the capture outcome never
changes whether the slow-query report itself is built and forwarded.
The function is total, so it never raises to its caller. -/
theorem c6_capture_failure_isolation (dbType : String) (w w' : DbWorld) (q : String) :
    (isSqlDatabase dbType = false → captureExecutionPlan dbType w q = (none, [], [])) ∧
    (∀ e : String, w.initOutcome = .error e → (captureExecutionPlan dbType w q).1 = none) ∧
    (∀ e : String, w.connectOutcome = .error e → (captureExecutionPlan dbType w q).1 = none) ∧
    (dbType ≠ "mssql" →
      ∀ e : String, w.queryOutcome (buildExplainQuery dbType q) = .error e →
      (captureExecutionPlan dbType w q).1 = none) ∧
    (∀ e : String, (captureExecutionPlanForMssql w q).1 = .error e →
      (captureExecutionPlan "mssql" w q).1 = none) ∧
    (∀ (c : QueryAnalyzerConfig) (env : ProcessEnv) (fx : Effects) (t : Int)
      (p : Option JSArg),
      (logQuerySlow c env (some dbType) w fx t q p).isSome
        = (logQuerySlow c env (some dbType) w' fx t q p).isSome) := by
  refine ⟨?_, ?_, ?_, ?_, ?_, ?_⟩
  · intro h
    simp [captureExecutionPlan, h]
  · intro e he
    cases hsql : isSqlDatabase dbType <;>
      simp [captureExecutionPlan, hsql, he]
  · intro e he
    cases hsql : isSqlDatabase dbType <;>
      rcases hi : w.initOutcome with e' | u <;>
      simp [captureExecutionPlan, hsql, hi, he]
  · intro hne e he
    cases hsql : isSqlDatabase dbType <;>
      rcases hi : w.initOutcome with e' | u <;>
      rcases hc : w.connectOutcome with e'' | u' <;>
      simp [captureExecutionPlan, hsql, hi, hc, hne, he]
  · intro e he
    rcases hm : captureExecutionPlanForMssql w q with ⟨r, steps⟩
    rw [hm] at he
    simp only at he
    subst he
    have hsq : isSqlDatabase "mssql" = true := by decide
    rcases hi : w.initOutcome with e' | u <;>
      rcases hc : w.connectOutcome with e'' | u' <;>
      simp [captureExecutionPlan, hsq, hi, hc, hm]
  · intro c env fx t p
    simp [logQuerySlow_isSome]

/-- A side-connection world whose connection setup rejects. -/
def dbWorldInitFail : DbWorld :=
  ⟨.error "ECONNREFUSED", .ok (), fun _ => .ok (.str "r"), fun _ => .ok "s", fun _ => "s"⟩

/-- A side-connection world where every issued SQL command rejects. -/
def dbWorldQueryFail : DbWorld :=
  ⟨.ok (), .ok (), fun _ => .error "syntax error", fun _ => .ok "s", fun _ => "s"⟩

/-- Witness for C6: a non-SQL store takes no step and returns nothing; a
refused connection and a failing EXPLAIN each yield nothing. -/
theorem c6_capture_failure_isolation_witness :
    isSqlDatabase "mongodb" = false ∧
    captureExecutionPlan "mongodb" dbWorldOk "SELECT 1" = (none, [], []) ∧
    (captureExecutionPlan "postgres" dbWorldInitFail "SELECT 1").1 = none ∧
    (captureExecutionPlan "postgres" dbWorldQueryFail "SELECT 1").1 = none := by
  have h := c6_capture_failure_isolation "mongodb" dbWorldOk dbWorldOk "SELECT 1"
  have h2 := c6_capture_failure_isolation "postgres" dbWorldInitFail dbWorldInitFail "SELECT 1"
  have h3 := c6_capture_failure_isolation "postgres" dbWorldQueryFail dbWorldQueryFail "SELECT 1"
  exact ⟨by decide, h.1 (by decide), h2.2.1 "ECONNREFUSED" rfl,
    h3.2.2.2.1 (by decide) "syntax error" rfl⟩

/-- C8: the mssql plan-capture sub-operation always issues
`SET SHOWPLAN_XML ON` first and issues `SET SHOWPLAN_XML OFF` on both its
success path and every failure path; a failure of the sub-operation
(including a failure to disable plan-only mode) surfaces only as a
caught, warn-logged "no result" of the enclosing plan-capture step,
which remains total. -/
theorem c8_mssql_showplan_cleanup (w : DbWorld) (q : String) :
    (captureExecutionPlanForMssql w q).2.head? = some (.execQuery showplanOn) ∧
    DbStep.execQuery showplanOff ∈ (captureExecutionPlanForMssql w q).2 ∧
    (∀ e : String, w.initOutcome = .ok () → w.connectOutcome = .ok () →
      (captureExecutionPlanForMssql w q).1 = .error e →
      (captureExecutionPlan "mssql" w q).1 = none ∧
      LogEvent.warnCaptureFailed ∈ (captureExecutionPlan "mssql" w q).2.2) := by
  refine ⟨?_, ?_, ?_⟩
  · rcases h1 : w.queryOutcome showplanOn with e1 | r1 <;>
      rcases h2 : w.queryOutcome q with e2 | r2 <;>
      rcases h3 : w.queryOutcome showplanOff with e3 | r3 <;>
      simp [captureExecutionPlanForMssql, mssqlCatchOff, h1, h2, h3]
  · rcases h1 : w.queryOutcome showplanOn with e1 | r1 <;>
      rcases h2 : w.queryOutcome q with e2 | r2 <;>
      rcases h3 : w.queryOutcome showplanOff with e3 | r3 <;>
      simp [captureExecutionPlanForMssql, mssqlCatchOff, h1, h2, h3]
  · intro e hi hc herr
    rcases hm : captureExecutionPlanForMssql w q with ⟨r, steps⟩
    rw [hm] at herr
    simp only at herr
    subst herr
    have hsq : isSqlDatabase "mssql" = true := by decide
    constructor <;> simp [captureExecutionPlan, hsq, hi, hc, hm]

/-- A side-connection world where disabling plan-only mode fails: every
command succeeds except `SET SHOWPLAN_XML OFF`. -/
def dbWorldOffFail : DbWorld :=
  ⟨.ok (), .ok (),
   fun sql => if sql = showplanOff then .error "off failed" else .ok (.str "r"),
   fun _ => .ok "s", fun _ => "s"⟩

/-- Witness for C8: with a failing `SET SHOWPLAN_XML OFF`, the OFF
command is still issued, the sub-operation fails, and the enclosing
capture logs and returns nothing. -/
theorem c8_mssql_showplan_cleanup_witness :
    DbStep.execQuery showplanOff ∈ (captureExecutionPlanForMssql dbWorldOffFail "SELECT 1").2 ∧
    (captureExecutionPlan "mssql" dbWorldOffFail "SELECT 1").1 = none ∧
    LogEvent.warnCaptureFailed ∈ (captureExecutionPlan "mssql" dbWorldOffFail "SELECT 1").2.2 := by
  have h := c8_mssql_showplan_cleanup dbWorldOffFail "SELECT 1"
  have h3 := h.2.2 "off failed" rfl rfl rfl
  exact ⟨h.2.1, h3.1, h3.2⟩

/-- C1: constructing `QueryAnalyzerLogger` with a configuration that
fails validation does not complete quietly with a mock sender — the
`catch` block's `new MockWebhookSender()` call passes no configuration,
and the mock's constructor immediately reads `config.queueConcurrency`,
so a `TypeError` escapes the logger constructor.  This contradicts the
declared required parameter of `MockWebhookSender`'s own constructor and
the documented no-crash fallback; evaluated here at a concrete invalid
configuration (missing `apiEndpoint`). -/
theorem c1_invalid_config_construction_raises :
    cfgBad.validate = .error "QUERY_ANALYZER_API_ENDPOINT is required" ∧
    MockWebhookSender.construct none
      = .error "TypeError: Cannot read properties of undefined (reading queueConcurrency)" ∧
    QueryAnalyzerLogger.construct cfgBad false none
      = .error "TypeError: Cannot read properties of undefined (reading queueConcurrency)" :=
  ⟨rfl, rfl, rfl⟩
